import Mathlib

/-!
Verification of the twenty domain-manager / cache-storage fragment.

The definitions below are a shallow embedding of
`DomainManagerService` (`src/unnamed/part_000`, second document) and
`cacheStorageModuleFactory`
(`src/packages/twenty-server/src/engine/core-modules/cache-storage/cache-storage.module-factory.ts`),
plus a model of the `CloudflareController.customHostnameWebhooks` handler,
whose body is not among the sources (only its unit test is) and which is
therefore modelled from the specification.

JavaScript conventions are made explicit: `Option` stands for values that may
be `undefined`/`null`, truthiness of strings and numbers is spelled out, and
`String.prototype.replace` with a string pattern replaces only the first
occurrence.
-/

namespace Twenty

/-- JS truthiness of an optional string: `undefined` and the empty string are falsy. -/
def truthyStr : Option String → Bool
  | none => false
  | some s => !s.isEmpty

/-- JS truthiness of an optional number: `undefined` and `0` are falsy. -/
def truthyNat : Option Nat → Bool
  | none => false
  | some n => n != 0

/-- First-occurrence replacement on character lists: JS
`String.prototype.replace` with a string pattern rewrites only the first
occurrence of the pattern and leaves the rest of the string alone. -/
def replaceFirstChars (pat rep : List Char) : List Char → List Char
  | [] => []
  | c :: cs =>
    if pat.isPrefixOf (c :: cs) then rep ++ (c :: cs).drop pat.length
    else c :: replaceFirstChars pat rep cs

/-- JS `s.replace(pat, rep)` for a string (non-regexp, non-empty) pattern. -/
def jsReplace (s pat rep : String) : String :=
  ⟨replaceFirstChars pat.data rep.data s.data⟩

/-- JS `s.endsWith(suffixStr)`. -/
def jsEndsWith (s suffixStr : String) : Bool :=
  suffixStr.data.isSuffixOf s.data

/-- Model of the platform `URL` object, restricted to the components this
fragment reads and writes.  `searchParams` is the ordered key/value list
behind `URLSearchParams`. -/
structure URLModel where
  protocol : String
  hostname : String
  port : String
  pathname : String
  searchParams : List (String × String)
  deriving DecidableEq, Repr

/-- The environment keys `DomainManagerService` consumes.  `SERVER_URL` is
kept in already-parsed form, since parsing it is the platform URL
constructor, not code of this repository. -/
structure DomainEnv where
  FRONT_PORT : Option Nat
  FRONT_DOMAIN : Option String
  FRONT_PROTOCOL : Option String
  SERVER_URL : URLModel
  IS_MULTIWORKSPACE_ENABLED : Bool
  DEFAULT_SUBDOMAIN : Option String
  deriving DecidableEq, Repr

/-- `DomainManagerService.getFrontUrl`: when `FRONT_DOMAIN` is falsy the parsed
`SERVER_URL` is the base, otherwise the URL built from the template literal
with `FRONT_PROTOCOL` and `FRONT_DOMAIN` (an undefined protocol renders as
the text `undefined`; `new URL` of a bare authority is modelled as that
protocol and hostname with empty port and query and pathname `/`).  A truthy
`FRONT_PORT` then overrides the port and a truthy `FRONT_PROTOCOL` overrides
the protocol. -/
def getFrontUrl (env : DomainEnv) : URLModel :=
  let base : URLModel :=
    if truthyStr env.FRONT_DOMAIN then
      { protocol := env.FRONT_PROTOCOL.getD "undefined"
        hostname := env.FRONT_DOMAIN.getD ""
        port := ""
        pathname := "/"
        searchParams := [] }
    else env.SERVER_URL
  let base :=
    if truthyNat env.FRONT_PORT then { base with port := toString (env.FRONT_PORT.getD 0) }
    else base
  if truthyStr env.FRONT_PROTOCOL then { base with protocol := env.FRONT_PROTOCOL.getD "" }
  else base

/-- `DomainManagerService.isDefaultSubdomain`: strict equality against the
configured `DEFAULT_SUBDOMAIN` (false when that key is undefined). -/
def isDefaultSubdomain (env : DomainEnv) (subdomain : String) : Bool :=
  env.DEFAULT_SUBDOMAIN == some subdomain

/-- The record returned by `getSubdomainAndCustomDomainFromUrl`: `subdomain`
is a string or `undefined`, `customDomain` is the origin hostname or `null`. -/
structure SubdomainCustomDomain where
  subdomain : Option String
  customDomain : Option String
  deriving DecidableEq, Repr

/-- `DomainManagerService.getSubdomainAndCustomDomainFromUrl`, taking the
already-parsed hostname of the origin URL (`new URL(url).hostname` is the
platform parser, not code of this repository). -/
def getSubdomainAndCustomDomainFromUrl (env : DomainEnv) (originHostname : String) :
    SubdomainCustomDomain :=
  let frontDomain := (getFrontUrl env).hostname
  let isFrontdomain := jsEndsWith originHostname ("." ++ frontDomain)
  let subdomain := jsReplace originHostname ("." ++ frontDomain) ""
  { subdomain :=
      if isFrontdomain && !(isDefaultSubdomain env subdomain) then some subdomain else none
    customDomain := if isFrontdomain then none else some originHostname }

/-- One entry of a custom-domain validation result. -/
structure CustomDomainRecord where
  status : String
  deriving DecidableEq, Repr

/-- The `CustomDomainValidRecords` DTO, restricted to the field this fragment
reads. -/
structure CustomDomainValidRecords where
  records : List CustomDomainRecord
  deriving DecidableEq, Repr

/-- `DomainManagerService.isCustomDomainWorking`: every record's status equals
the `success` sentinel. -/
def isCustomDomainWorking (customDomainDetails : CustomDomainValidRecords) : Bool :=
  customDomainDetails.records.all (fun r => r.status == "success")

/-- Follows the spec words of C1 only (not the source): the leading label of a
hostname, i.e. everything before the first dot. -/
def specLeadingLabel (hostname : String) : String :=
  ⟨hostname.data.takeWhile (fun c => c != '.')⟩

/-- A concrete configuration used by the concrete evaluations below: front
domain `example.com`, default subdomain `app`. -/
def envC1 : DomainEnv :=
  { FRONT_PORT := none
    FRONT_DOMAIN := some "example.com"
    FRONT_PROTOCOL := some "https"
    SERVER_URL :=
      { protocol := "https", hostname := "server.local", port := "", pathname := "/"
        searchParams := [] }
    IS_MULTIWORKSPACE_ENABLED := true
    DEFAULT_SUBDOMAIN := some "app" }

/-- C1 counterexample: for the configured front domain `example.com` and the
origin hostname `a.b.example.com` (which does end with `.example.com`, and
whose leading label `a` is not the default subdomain), the code returns
subdomain `a.b` — the hostname with the first occurrence of `.example.com`
removed — and not the leading label `a` the claim announces. -/
theorem C1_counterexample :
    jsEndsWith "a.b.example.com" ("." ++ (getFrontUrl envC1).hostname) = true ∧
    specLeadingLabel "a.b.example.com" = "a" ∧
    isDefaultSubdomain envC1 "a" = false ∧
    (getSubdomainAndCustomDomainFromUrl envC1 "a.b.example.com").subdomain = some "a.b" ∧
    some "a.b" ≠ some (specLeadingLabel "a.b.example.com") := by
  refine ⟨by decide, by decide, by decide, by decide, by decide⟩

/-- C1 (amended): for a hostname ending with `.` + front domain the function
returns `customDomain = null` and, as subdomain, the hostname with the first
occurrence of `.` + front domain removed — suppressed (undefined) when that
string equals the configured `DEFAULT_SUBDOMAIN`; for any other hostname it
returns the whole hostname as `customDomain` and no subdomain. -/
theorem C1_subdomain_customDomain (env : DomainEnv) (h : String) :
    (jsEndsWith h ("." ++ (getFrontUrl env).hostname) = true →
      (getSubdomainAndCustomDomainFromUrl env h).customDomain = none ∧
      (getSubdomainAndCustomDomainFromUrl env h).subdomain =
        (if isDefaultSubdomain env (jsReplace h ("." ++ (getFrontUrl env).hostname) "") then
          none
         else some (jsReplace h ("." ++ (getFrontUrl env).hostname) ""))) ∧
    (jsEndsWith h ("." ++ (getFrontUrl env).hostname) = false →
      (getSubdomainAndCustomDomainFromUrl env h).customDomain = some h ∧
      (getSubdomainAndCustomDomainFromUrl env h).subdomain = none) := by
  unfold getSubdomainAndCustomDomainFromUrl
  constructor
  · intro hend
    simp only [hend, Bool.true_and]
    refine ⟨rfl, ?_⟩
    by_cases hd : isDefaultSubdomain env (jsReplace h ("." ++ (getFrontUrl env).hostname) "")
    · simp [hd]
    · simp [hd]
  · intro hend
    simp [hend]

/-- Witness for C1 (amended) at a concrete input: origin hostname
`sub.example.com` against front domain `example.com` yields subdomain `sub`
and a null custom domain. -/
theorem C1_subdomain_customDomain_witness :
    (getSubdomainAndCustomDomainFromUrl envC1 "sub.example.com").customDomain = none ∧
    (getSubdomainAndCustomDomainFromUrl envC1 "sub.example.com").subdomain = some "sub" := by
  have hmain := (C1_subdomain_customDomain envC1 "sub.example.com").1 (by decide)
  exact ⟨hmain.1, by rw [hmain.2]; decide⟩

/-- C5: `getSubdomainAndCustomDomainFromUrl` never returns both a subdomain
and a non-null custom domain: one of the two fields is always absent. -/
theorem C5_never_both (env : DomainEnv) (h : String) :
    (getSubdomainAndCustomDomainFromUrl env h).subdomain = none ∨
    (getSubdomainAndCustomDomainFromUrl env h).customDomain = none := by
  unfold getSubdomainAndCustomDomainFromUrl
  by_cases hf : jsEndsWith h ("." ++ (getFrontUrl env).hostname)
  · right
    simp [hf]
  · left
    simp [hf]

/-- C10: a validation result with an empty record list counts as working —
the `every record's status is success` check is vacuously true. -/
theorem C10_empty_records_working (d : CustomDomainValidRecords) (h : d.records = []) :
    isCustomDomainWorking d = true := by
  simp [isCustomDomainWorking, h]

/-- Witness for C10 at the concrete empty validation result. -/
theorem C10_empty_records_working_witness :
    (CustomDomainValidRecords.mk []).records = [] ∧
    isCustomDomainWorking (CustomDomainValidRecords.mk []) = true :=
  ⟨rfl, C10_empty_records_working (CustomDomainValidRecords.mk []) rfl⟩

/-- A workspace (tenant) record, restricted to the fields this fragment
reads: the unique subdomain, the optional custom domain, the custom-domain
flag and the creation timestamp the default-workspace query orders by. -/
structure Workspace where
  subdomain : String
  customDomain : Option String
  isCustomDomainEnabled : Bool
  createdAt : Nat
  deriving DecidableEq, Repr

/-- `DomainManagerService.getCustomWorkspaceUrl`: the front URL with its
hostname replaced by the custom domain (`toString` and the re-parse in
`buildWorkspaceURL` round-trip, so the URL value is kept structured). -/
def getCustomWorkspaceUrl (env : DomainEnv) (customDomain : String) : URLModel :=
  { getFrontUrl env with hostname := customDomain }

/-- `DomainManagerService.getTwentyWorkspaceUrl`: the front URL with the
subdomain prepended to its hostname. -/
def getTwentyWorkspaceUrl (env : DomainEnv) (subdomain : String) : URLModel :=
  let url := getFrontUrl env
  { url with hostname := subdomain ++ "." ++ url.hostname }

/-- The record returned by `getWorkspaceUrls`. -/
structure WorkspaceUrls where
  customUrl : Option URLModel
  subdomainUrl : URLModel
  deriving DecidableEq, Repr

/-- `DomainManagerService.getWorkspaceUrls`: the custom URL is present only
when `isCustomDomainEnabled` holds and `customDomain` is truthy (defined and
non-empty); the subdomain URL is always built. -/
def getWorkspaceUrls (env : DomainEnv) (w : Workspace) : WorkspaceUrls :=
  { customUrl :=
      if w.isCustomDomainEnabled && truthyStr w.customDomain then
        some (getCustomWorkspaceUrl env (w.customDomain.getD ""))
      else none
    subdomainUrl := getTwentyWorkspaceUrl env w.subdomain }

/-- `URLSearchParams.set`: overwrite the value of an existing key, otherwise
append the pair at the end. -/
def setParam (params : List (String × String)) (k v : String) : List (String × String) :=
  if params.any (fun p => p.1 == k) then
    params.map (fun p => if p.1 == k then (k, v) else p)
  else params ++ [(k, v)]

/-- `DomainManagerService.buildWorkspaceURL`: start from
`customUrl ?? subdomainUrl`, set the pathname when one is given and truthy,
then `set` each search parameter whose value is defined, skipping undefined
values (values are already rendered to strings, as `value.toString()` does). -/
def buildWorkspaceURL (env : DomainEnv) (w : Workspace) (pathname : Option String)
    (searchParams : List (String × Option String)) : URLModel :=
  let urls := getWorkspaceUrls env w
  let url := urls.customUrl.getD urls.subdomainUrl
  let url := if truthyStr pathname then { url with pathname := pathname.getD "" } else url
  { url with
    searchParams :=
      searchParams.foldl
        (fun acc kv =>
          match kv.2 with
          | some v => setParam acc kv.1 v
          | none => acc)
        url.searchParams }

/-- The search parameters whose values are defined, in payload order. -/
def definedParams (sp : List (String × Option String)) : List (String × String) :=
  sp.filterMap (fun kv => kv.2.map (fun v => (kv.1, v)))

lemma setParam_of_fresh (acc : List (String × String)) (k v : String)
    (h : ∀ p ∈ acc, p.1 ≠ k) : setParam acc k v = acc ++ [(k, v)] := by
  unfold setParam
  rw [if_neg]
  intro hany
  rw [List.any_eq_true] at hany
  obtain ⟨p, hp, hpk⟩ := hany
  exact h p hp (by simpa using hpk)

lemma foldl_setParam_fresh (sp : List (String × Option String)) :
    ∀ acc : List (String × String),
      (∀ kv ∈ sp, ∀ p ∈ acc, p.1 ≠ kv.1) →
      (sp.map Prod.fst).Nodup →
      sp.foldl
          (fun acc kv =>
            match kv.2 with
            | some v => setParam acc kv.1 v
            | none => acc)
          acc
        = acc ++ definedParams sp := by
  induction sp with
  | nil => intro acc _ _; simp [definedParams]
  | cons kv rest ih =>
    intro acc hdisj hnodup
    obtain ⟨k, vo⟩ := kv
    rw [List.map_cons, List.nodup_cons] at hnodup
    cases vo with
    | none =>
      rw [List.foldl_cons]
      have := ih acc (fun kv hkv p hp => hdisj kv (List.mem_cons_of_mem _ hkv) p hp) hnodup.2
      simpa [definedParams] using this
    | some v =>
      rw [List.foldl_cons]
      have hfresh : ∀ p ∈ acc, p.1 ≠ k := fun p hp =>
        hdisj (k, some v) (List.mem_cons_self _ _) p hp
      have hstep : setParam acc k v = acc ++ [(k, v)] := setParam_of_fresh acc k v hfresh
      have hdisj2 : ∀ kv2 ∈ rest, ∀ p ∈ acc ++ [(k, v)], p.1 ≠ kv2.1 := by
        intro kv2 hkv2 p hp
        rcases List.mem_append.mp hp with hpl | hpr
        · exact hdisj kv2 (List.mem_cons_of_mem _ hkv2) p hpl
        · have hpk : p = (k, v) := by simpa using hpr
          subst hpk
          intro hk
          exact hnodup.1 (hk ▸ List.mem_map_of_mem Prod.fst hkv2)
      have := ih (acc ++ [(k, v)]) hdisj2 hnodup.2
      simp only [hstep, this, definedParams, List.filterMap_cons]
      simp [List.append_assoc]

/-- C7: `buildWorkspaceURL` uses the custom-domain URL exactly when
`isCustomDomainEnabled` holds and `customDomain` is defined and non-empty —
in every other case (including an enabled flag with an empty or absent custom
domain) the hostname is `subdomain.frontDomain` — and, starting from a front
URL without search parameters and a payload with distinct keys, the resulting
search parameters are exactly the defined entries, the undefined ones being
skipped. -/
theorem C7_buildWorkspaceURL (env : DomainEnv) (w : Workspace) (pathname : Option String)
    (searchParams : List (String × Option String))
    (hbase : (getFrontUrl env).searchParams = [])
    (hkeys : (searchParams.map Prod.fst).Nodup) :
    (buildWorkspaceURL env w pathname searchParams).hostname =
      (match w.customDomain with
       | some cd =>
         if w.isCustomDomainEnabled && !cd.isEmpty then cd
         else w.subdomain ++ "." ++ (getFrontUrl env).hostname
       | none => w.subdomain ++ "." ++ (getFrontUrl env).hostname) ∧
    (buildWorkspaceURL env w pathname searchParams).searchParams =
      definedParams searchParams := by
  have hfold := foldl_setParam_fresh searchParams []
    (fun kv _ p hp => absurd hp (List.not_mem_nil p)) hkeys
  unfold buildWorkspaceURL getWorkspaceUrls getCustomWorkspaceUrl getTwentyWorkspaceUrl
  cases hcd : w.customDomain with
  | none =>
    cases pathname with
    | none => simp [hcd, truthyStr, hbase, hfold]
    | some p => by_cases hp : p.isEmpty <;> simp [hcd, truthyStr, hbase, hfold, hp]
  | some cd =>
    by_cases he : w.isCustomDomainEnabled && !cd.isEmpty
    · cases pathname with
      | none => simp [hcd, truthyStr, he, hbase, hfold]
      | some p => by_cases hp : p.isEmpty <;> simp [hcd, truthyStr, he, hbase, hfold, hp]
    · cases pathname with
      | none => simp [hcd, truthyStr, he, hbase, hfold]
      | some p => by_cases hp : p.isEmpty <;> simp [hcd, truthyStr, he, hbase, hfold, hp]

/-- A concrete workspace with the custom-domain flag set but an empty custom
domain: the contract says the subdomain URL must be used. -/
def wsEmptyCustom : Workspace :=
  { subdomain := "sub", customDomain := some "", isCustomDomainEnabled := true, createdAt := 1 }

/-- Witness for C7 at a concrete input: flag set but empty custom domain falls
back to `sub.example.com`, the defined parameter is kept and the undefined one
is skipped. -/
theorem C7_buildWorkspaceURL_witness :
    (buildWorkspaceURL envC1 wsEmptyCustom (some "verify")
        [("a", some "1"), ("b", none)]).hostname = "sub.example.com" ∧
    (buildWorkspaceURL envC1 wsEmptyCustom (some "verify")
        [("a", some "1"), ("b", none)]).searchParams = [("a", "1")] := by
  have h := C7_buildWorkspaceURL envC1 wsEmptyCustom (some "verify")
    [("a", some "1"), ("b", none)] (by decide) (by decide)
  exact ⟨h.1.trans (by decide), h.2.trans (by decide)⟩

/-- Repository `findOne({where: {subdomain}})`: first stored workspace with
that subdomain. -/
def findBySubdomain (store : List Workspace) (sd : String) : Option Workspace :=
  store.find? (fun w => w.subdomain == sd)

/-- Repository `findOneBy({customDomain})`: first stored workspace with that
custom domain. -/
def findByCustomDomain (store : List Workspace) (cd : String) : Option Workspace :=
  store.find? (fun w => w.customDomain == some cd)

/-- Repository `find({order: {createdAt: 'DESC'}})` followed by `[0]`: the
first workspace with maximal `createdAt` (the database order among equal
timestamps is unspecified; the first-listed one wins here), or `none` when the
store is empty — the JS index access yields `undefined` there. -/
def mostRecentlyCreated : List Workspace → Option Workspace
  | [] => none
  | w :: ws =>
    match mostRecentlyCreated ws with
    | none => some w
    | some m => if w.createdAt < m.createdAt then some m else some w

/-- `DomainManagerService.getDefaultWorkspace`: on success, the chosen
workspace (if any) together with whether the more-than-one-workspace warning
fired; the throw on enabled multi-workspace mode is `Except.error`. -/
def getDefaultWorkspace (env : DomainEnv) (store : List Workspace) :
    Except String (Option Workspace × Bool) :=
  if !env.IS_MULTIWORKSPACE_ENABLED then
    let viaDefault : Option Workspace :=
      match env.DEFAULT_SUBDOMAIN with
      | some d => findBySubdomain store d
      | none => none
    match viaDefault with
    | some w => .ok (some w, false)
    | none => .ok (mostRecentlyCreated store, decide (store.length > 1))
  else .error "Default workspace not exist when multi-workspace is enabled"

/-- `DomainManagerService.getWorkspaceByOriginOrDefaultWorkspace`, taking the
origin's parsed hostname; the boolean again records the warning. -/
def getWorkspaceByOriginOrDefaultWorkspace (env : DomainEnv) (store : List Workspace)
    (originHostname : String) : Except String (Option Workspace × Bool) :=
  if !env.IS_MULTIWORKSPACE_ENABLED then getDefaultWorkspace env store
  else
    let r := getSubdomainAndCustomDomainFromUrl env originHostname
    if !truthyStr r.customDomain && !truthyStr r.subdomain then .ok (none, false)
    else
      match r.customDomain with
      | some cd => .ok (findByCustomDomain store cd, false)
      | none => .ok (findBySubdomain store (r.subdomain.getD ""), false)

lemma mostRecentlyCreated_ne_none :
    ∀ {store : List Workspace}, store ≠ [] →
      ∃ w, mostRecentlyCreated store = some w := by
  intro store hne
  cases store with
  | nil => exact absurd rfl hne
  | cons a as =>
    unfold mostRecentlyCreated
    cases hrec : mostRecentlyCreated as with
    | none => exact ⟨a, by simp only [hrec]⟩
    | some m =>
      by_cases hlt : a.createdAt < m.createdAt
      · exact ⟨m, by simp only [hrec]; rw [if_pos hlt]⟩
      · exact ⟨a, by simp only [hrec]; rw [if_neg hlt]⟩

lemma mostRecentlyCreated_mem :
    ∀ {store : List Workspace} {w : Workspace},
      mostRecentlyCreated store = some w → w ∈ store := by
  intro store
  induction store with
  | nil => intro w hw; simp [mostRecentlyCreated] at hw
  | cons a as ih =>
    intro w hw
    unfold mostRecentlyCreated at hw
    split at hw
    · injection hw with hw
      exact hw ▸ List.mem_cons_self a as
    · next m hrec =>
      split at hw
      · injection hw with hw
        exact List.mem_cons_of_mem a (ih (hw ▸ hrec))
      · injection hw with hw
        exact hw ▸ List.mem_cons_self a as

lemma mostRecentlyCreated_maximal :
    ∀ {store : List Workspace} {w : Workspace},
      mostRecentlyCreated store = some w →
      ∀ v ∈ store, v.createdAt ≤ w.createdAt := by
  intro store
  induction store with
  | nil => intro w hw; simp [mostRecentlyCreated] at hw
  | cons a as ih =>
    intro w hw v hv
    unfold mostRecentlyCreated at hw
    split at hw
    · next hrec =>
      injection hw with hw
      subst hw
      rcases List.mem_cons.mp hv with hva | hvas
      · exact hva ▸ Nat.le_refl _
      · obtain ⟨x, hx⟩ := @mostRecentlyCreated_ne_none as
          (fun hnil => by subst hnil; simp at hvas)
        rw [hx] at hrec
        exact Option.noConfusion hrec
    · next m hrec =>
      split at hw
      · next hlt =>
        injection hw with hw
        subst hw
        rcases List.mem_cons.mp hv with hva | hvas
        · exact hva ▸ Nat.le_of_lt hlt
        · exact ih hrec v hvas
      · next hlt =>
        injection hw with hw
        subst hw
        rcases List.mem_cons.mp hv with hva | hvas
        · exact hva ▸ Nat.le_refl _
        · exact Nat.le_trans (ih hrec v hvas) (Nat.le_of_not_lt hlt)

/-- A single-workspace-mode configuration with default subdomain `app`. -/
def envSingle : DomainEnv :=
  { FRONT_PORT := none
    FRONT_DOMAIN := some "example.com"
    FRONT_PROTOCOL := some "https"
    SERVER_URL :=
      { protocol := "https", hostname := "server.local", port := "", pathname := "/"
        searchParams := [] }
    IS_MULTIWORKSPACE_ENABLED := false
    DEFAULT_SUBDOMAIN := some "app" }

/-- A workspace on the default subdomain. -/
def wsApp : Workspace :=
  { subdomain := "app", customDomain := none, isCustomDomainEnabled := false, createdAt := 5 }

/-- A second, older workspace on another subdomain. -/
def wsOld : Workspace :=
  { subdomain := "old", customDomain := none, isCustomDomainEnabled := false, createdAt := 9 }

/-- C8 counterexample: with multi-tenancy disabled, resolution over an empty
workspace store returns no workspace at all (the claim says it always returns
one), and a store holding the default-subdomain workspace plus a second
workspace returns the default one without firing the more-than-one-workspace
warning (the claim says more than one workspace produces a warning). -/
theorem C8_counterexample :
    getWorkspaceByOriginOrDefaultWorkspace envSingle [] "app.example.com" = .ok (none, false) ∧
    getWorkspaceByOriginOrDefaultWorkspace envSingle [wsApp, wsOld] "app.example.com" =
      .ok (some wsApp, false) := by
  exact ⟨rfl, rfl⟩

/-- C8 (amended): with multi-tenancy disabled, resolution by origin is
deterministic — the workspace whose subdomain equals the configured
`DEFAULT_SUBDOMAIN` when one exists (and then without warning), otherwise the
most-recently-created workspace when the store is nonempty, firing the warning
exactly when more than one workspace is stored; an empty store yields no
workspace, and none of this is an error. -/
theorem C8_default_workspace (env : DomainEnv) (store : List Workspace) (origin : String)
    (hm : env.IS_MULTIWORKSPACE_ENABLED = false) :
    (∀ d w, env.DEFAULT_SUBDOMAIN = some d → findBySubdomain store d = some w →
      getWorkspaceByOriginOrDefaultWorkspace env store origin = .ok (some w, false)) ∧
    ((∀ d, env.DEFAULT_SUBDOMAIN = some d → findBySubdomain store d = none) → store ≠ [] →
      ∃ w, getWorkspaceByOriginOrDefaultWorkspace env store origin =
          .ok (some w, decide (store.length > 1)) ∧
        w ∈ store ∧ ∀ v ∈ store, v.createdAt ≤ w.createdAt) ∧
    ((∀ d, env.DEFAULT_SUBDOMAIN = some d → findBySubdomain store d = none) → store = [] →
      getWorkspaceByOriginOrDefaultWorkspace env store origin = .ok (none, false)) := by
  unfold getWorkspaceByOriginOrDefaultWorkspace getDefaultWorkspace
  rw [hm]
  refine ⟨?_, ?_, ?_⟩
  · intro d w hd hfind
    simp [hd, hfind]
  · intro hnodefault hne
    obtain ⟨w, hw⟩ := mostRecentlyCreated_ne_none hne
    refine ⟨w, ?_, mostRecentlyCreated_mem hw, mostRecentlyCreated_maximal hw⟩
    cases hd : env.DEFAULT_SUBDOMAIN with
    | none => simp [hw]
    | some d => simp [hnodefault d hd, hw]
  · intro hnodefault hempty
    subst hempty
    cases hd : env.DEFAULT_SUBDOMAIN with
    | none => simp [mostRecentlyCreated]
    | some d => simp [hnodefault d hd, mostRecentlyCreated]

/-- Witness for C8 (amended) at a concrete input: the store holding the
default-subdomain workspace and a second one resolves to the former. -/
theorem C8_default_workspace_witness :
    getWorkspaceByOriginOrDefaultWorkspace envSingle [wsApp, wsOld] "x.example.com" =
      .ok (some wsApp, false) :=
  (C8_default_workspace envSingle [wsApp, wsOld] "x.example.com" rfl).1 "app" wsApp rfl
    (by decide)

/-- The configured cache backend kind: the two enum members plus an escape
constructor for any other runtime value, which the factory's default branch
rejects. -/
inductive CacheStorageType where
  | Memory
  | Redis
  | Other (value : String)
  deriving DecidableEq, Repr

/-- Marker for the third-party `redisStore` implementation the factory wires
in for the Redis backend. -/
inductive CacheStore where
  | redisStore
  deriving DecidableEq, Repr

/-- The `CacheModuleOptions` object the factory returns, restricted to the
fields it sets: base options carry no store and no socket. -/
structure CacheModuleOptions where
  isGlobal : Bool
  ttl : Nat
  store : Option CacheStore
  socketConnectionString : Option String
  deriving DecidableEq, Repr

/-- The environment keys `cacheStorageModuleFactory` consumes. -/
structure CacheEnv where
  CACHE_STORAGE_TYPE : CacheStorageType
  CACHE_STORAGE_TTL : Nat
  REDIS_URL : Option String
  deriving DecidableEq, Repr

/-- `cacheStorageModuleFactory`: global options with the TTL converted from
seconds to milliseconds; the Memory backend returns them as-is, the Redis
backend additionally wires `redisStore` and the connection string but throws
(`Except.error`) when `REDIS_URL` is falsy (undefined or empty), and any
other backend value throws. -/
def cacheStorageModuleFactory (env : CacheEnv) : Except String CacheModuleOptions :=
  let cacheModuleOptions : CacheModuleOptions :=
    { isGlobal := true
      ttl := env.CACHE_STORAGE_TTL * 1000
      store := none
      socketConnectionString := none }
  match env.CACHE_STORAGE_TYPE with
  | .Memory => .ok cacheModuleOptions
  | .Redis =>
    if truthyStr env.REDIS_URL then
      .ok { cacheModuleOptions with
              store := some .redisStore
              socketConnectionString := env.REDIS_URL }
    else .error "cache storage requires REDIS_URL to be defined, check your .env file"
  | .Other _ => .error "Invalid cache-storage, check your .env file"

/-- Whether the factory threw. -/
def cacheFactoryThrows (env : CacheEnv) : Bool :=
  match cacheStorageModuleFactory env with
  | .error _ => true
  | .ok _ => false

/-- C9: the factory throws exactly when the backend is Redis with a falsy
(absent or empty) `REDIS_URL`, or the backend is neither Memory nor Redis;
Memory yields the base options without a store, and Redis with a connection
string yields the base options carrying `redisStore` and that string. -/
theorem C9_cache_factory (env : CacheEnv) :
    (cacheFactoryThrows env = true ↔
      (env.CACHE_STORAGE_TYPE = .Redis ∧ truthyStr env.REDIS_URL = false) ∨
      (env.CACHE_STORAGE_TYPE ≠ .Memory ∧ env.CACHE_STORAGE_TYPE ≠ .Redis)) ∧
    (env.CACHE_STORAGE_TYPE = .Memory →
      cacheStorageModuleFactory env =
        .ok { isGlobal := true, ttl := env.CACHE_STORAGE_TTL * 1000, store := none
              socketConnectionString := none }) ∧
    (∀ c, env.CACHE_STORAGE_TYPE = .Redis → env.REDIS_URL = some c → c ≠ "" →
      cacheStorageModuleFactory env =
        .ok { isGlobal := true, ttl := env.CACHE_STORAGE_TTL * 1000
              store := some .redisStore, socketConnectionString := some c }) := by
  refine ⟨?_, ?_, ?_⟩
  · unfold cacheFactoryThrows cacheStorageModuleFactory
    cases htype : env.CACHE_STORAGE_TYPE with
    | Memory => simp [htype]
    | Redis =>
      by_cases hurl : truthyStr env.REDIS_URL <;> simp [htype, hurl]
    | Other v => simp [htype]
  · intro htype
    unfold cacheStorageModuleFactory
    rw [htype]
  · intro c htype hurl hne
    have hempty : c.isEmpty = false := by
      cases hc : c.isEmpty
      · rfl
      · exact absurd ((String.isEmpty_iff c).mp hc) hne
    simp [cacheStorageModuleFactory, htype, hurl, truthyStr, hempty]

/-- Witness for C9 at concrete inputs: a Memory configuration returns the
base options, and a Redis configuration with a connection string carries the
redis store. -/
theorem C9_cache_factory_witness :
    cacheStorageModuleFactory
        { CACHE_STORAGE_TYPE := .Memory, CACHE_STORAGE_TTL := 7, REDIS_URL := none } =
      .ok { isGlobal := true, ttl := 7000, store := none, socketConnectionString := none } ∧
    cacheStorageModuleFactory
        { CACHE_STORAGE_TYPE := .Redis, CACHE_STORAGE_TTL := 7
          REDIS_URL := some "redis-host" } =
      .ok { isGlobal := true, ttl := 7000, store := some .redisStore
            socketConnectionString := some "redis-host" } := by
  constructor
  · exact (C9_cache_factory
      { CACHE_STORAGE_TYPE := .Memory, CACHE_STORAGE_TTL := 7, REDIS_URL := none }).2.1 rfl
  · exact (C9_cache_factory
      { CACHE_STORAGE_TYPE := .Redis, CACHE_STORAGE_TTL := 7
        REDIS_URL := some "redis-host" }).2.2 "redis-host" rfl rfl (by decide)

/-- The payload a webhook `save` call persists: `{customDomain,
isCustomDomainEnabled}`. -/
structure WorkspacePatch where
  customDomain : Option String
  isCustomDomainEnabled : Bool
  deriving DecidableEq, Repr

/-- Apply a persisted patch to the stored workspace row. -/
def applyPatch (patch : WorkspacePatch) (w : Workspace) : Workspace :=
  { w with
    customDomain := patch.customDomain
    isCustomDomainEnabled := patch.isCustomDomainEnabled }

/-- Replace the first element satisfying `p` by its image under `f` — the
store updating the row the lookup returned. -/
def updateFirst {α : Type} (p : α → Bool) (f : α → α) : List α → List α
  | [] => []
  | x :: xs => if p x then f x :: xs else x :: updateFirst p f xs

/-- The observable outcome of one webhook invocation: HTTP status, post-state
of the workspace store, the persisted payloads in order, and whether the
tenant store and the DNS-validation collaborator were consulted. -/
structure WebhookResult where
  status : Nat
  store : List Workspace
  writes : List WorkspacePatch
  didStoreRead : Bool
  didDnsLookup : Bool
  deriving DecidableEq, Repr

/-- Modelled from the spec: the body of
`CloudflareController.customHostnameWebhooks` is not among the sources (only
its unit test is), so the handler follows the reconciliation algorithm of
spec §4.2 step by step: (1) shared-secret check — mismatch answers an
authentication-failure status (modelled as 401) with no store read, no DNS
lookup and no write; (2) absent hostname — 200 and no-op; (3) tenant lookup
by `customDomain == hostname`, not found — 200 and no-op; (4-5) DNS
validation details unavailable — clear the tenant's custom domain
(`{customDomain: null, isCustomDomainEnabled: false}`) when it still equals
the hostname; (6) details available — persist `{customDomain: hostname,
isCustomDomainEnabled: working}` only when `working` (every record
successful) differs from the stored flag; (7) always 200 once authenticated.
`validation` stands for `CustomDomainService.getCustomDomainDetails`. -/
def customHostnameWebhooks (expectedSecret : String) (secretHeader : Option String)
    (hostname : Option String) (validation : String → Option CustomDomainValidRecords)
    (store : List Workspace) : WebhookResult :=
  if secretHeader != some expectedSecret then
    { status := 401, store := store, writes := [], didStoreRead := false, didDnsLookup := false }
  else
    match hostname with
    | none =>
      { status := 200, store := store, writes := [], didStoreRead := false
        didDnsLookup := false }
    | some h =>
      match findByCustomDomain store h with
      | none =>
        { status := 200, store := store, writes := [], didStoreRead := true
          didDnsLookup := false }
      | some workspace =>
        match validation h with
        | none =>
          if workspace.customDomain == some h then
            { status := 200
              store := updateFirst (fun w => w.customDomain == some h)
                (applyPatch { customDomain := none, isCustomDomainEnabled := false }) store
              writes := [{ customDomain := none, isCustomDomainEnabled := false }]
              didStoreRead := true, didDnsLookup := true }
          else
            { status := 200, store := store, writes := [], didStoreRead := true
              didDnsLookup := true }
        | some details =>
          if isCustomDomainWorking details != workspace.isCustomDomainEnabled then
            { status := 200
              store := updateFirst (fun w => w.customDomain == some h)
                (applyPatch { customDomain := some h
                              isCustomDomainEnabled := isCustomDomainWorking details }) store
              writes := [{ customDomain := some h
                           isCustomDomainEnabled := isCustomDomainWorking details }]
              didStoreRead := true, didDnsLookup := true }
          else
            { status := 200, store := store, writes := [], didStoreRead := true
              didDnsLookup := true }

lemma find?_updateFirst_pos {α : Type} (p : α → Bool) (f : α → α) :
    ∀ (l : List α) (x : α), l.find? p = some x → p (f x) = true →
      (updateFirst p f l).find? p = some (f x) := by
  intro l
  induction l with
  | nil => intro x hx _; simp at hx
  | cons a as ih =>
    intro x hx hf
    by_cases hpa : p a
    · rw [List.find?_cons_of_pos _ hpa] at hx
      injection hx with hx
      subst hx
      simp [updateFirst, hpa, List.find?_cons_of_pos _ hf]
    · rw [List.find?_cons_of_neg _ hpa] at hx
      simp [updateFirst, hpa, List.find?_cons_of_neg _ hpa, ih x hx hf]

lemma find?_updateFirst_gone {α : Type} (p : α → Bool) (f : α → α) :
    ∀ (l : List α) (x : α), l.find? p = some x → p (f x) = false →
      l.countP p ≤ 1 → (updateFirst p f l).find? p = none := by
  intro l
  induction l with
  | nil => intro x hx _ _; simp at hx
  | cons a as ih =>
    intro x hx hf hcount
    by_cases hpa : p a
    · rw [List.find?_cons_of_pos _ hpa] at hx
      injection hx with hx
      subst hx
      rw [List.countP_cons_of_pos _ _ hpa] at hcount
      have hzero : as.countP p = 0 := Nat.le_zero.mp (Nat.le_of_succ_le_succ hcount)
      have hnone : as.find? p = none := by
        rw [List.find?_eq_none]
        intro y hy
        exact List.countP_eq_zero.mp hzero y hy
      rw [show updateFirst p f (a :: as) = f a :: as from by simp [updateFirst, hpa]]
      rw [List.find?_cons_of_neg _ (by simp [hf])]
      exact hnone
    · rw [List.find?_cons_of_neg _ hpa] at hx
      rw [List.countP_cons_of_neg _ _ hpa] at hcount
      rw [show updateFirst p f (a :: as) = a :: updateFirst p f as from by
        simp [updateFirst, hpa]]
      rw [List.find?_cons_of_neg _ hpa]
      exact ih x hx hf hcount

lemma webhook_found_validated (expectedSecret h : String)
    (validation : String → Option CustomDomainValidRecords) (store : List Workspace)
    (ws : Workspace) (details : CustomDomainValidRecords)
    (hfind : findByCustomDomain store h = some ws)
    (hval : validation h = some details) :
    customHostnameWebhooks expectedSecret (some expectedSecret) (some h) validation store =
      if isCustomDomainWorking details != ws.isCustomDomainEnabled then
        { status := 200
          store := updateFirst (fun w => w.customDomain == some h)
            (applyPatch { customDomain := some h
                          isCustomDomainEnabled := isCustomDomainWorking details }) store
          writes := [{ customDomain := some h
                       isCustomDomainEnabled := isCustomDomainWorking details }]
          didStoreRead := true, didDnsLookup := true }
      else
        { status := 200, store := store, writes := [], didStoreRead := true
          didDnsLookup := true } := by
  simp [customHostnameWebhooks, hfind, hval]

lemma webhook_found_unavailable (expectedSecret h : String)
    (validation : String → Option CustomDomainValidRecords) (store : List Workspace)
    (ws : Workspace)
    (hfind : findByCustomDomain store h = some ws)
    (hval : validation h = none) :
    customHostnameWebhooks expectedSecret (some expectedSecret) (some h) validation store =
      if ws.customDomain == some h then
        { status := 200
          store := updateFirst (fun w => w.customDomain == some h)
            (applyPatch { customDomain := none, isCustomDomainEnabled := false }) store
          writes := [{ customDomain := none, isCustomDomainEnabled := false }]
          didStoreRead := true, didDnsLookup := true }
      else
        { status := 200, store := store, writes := [], didStoreRead := true
          didDnsLookup := true } := by
  simp [customHostnameWebhooks, hfind, hval]

lemma webhook_not_found (expectedSecret h : String)
    (validation : String → Option CustomDomainValidRecords) (store : List Workspace)
    (hfind : findByCustomDomain store h = none) :
    customHostnameWebhooks expectedSecret (some expectedSecret) (some h) validation store =
      { status := 200, store := store, writes := [], didStoreRead := true
        didDnsLookup := false } := by
  simp [customHostnameWebhooks, hfind]

/-- C2: for an authenticated webhook whose hostname is the custom domain of a
stored tenant and whose DNS validation details are available, a write happens
exactly when `working` (every record successful) differs from the stored
flag, and then the persisted record is `{customDomain: hostname,
isCustomDomainEnabled: working}`; otherwise nothing is written and the store
is untouched — and a repeated identical delivery never writes. -/
theorem C2_reconcile_write_iff (expectedSecret h : String)
    (validation : String → Option CustomDomainValidRecords) (store : List Workspace)
    (ws : Workspace) (details : CustomDomainValidRecords)
    (hfind : findByCustomDomain store h = some ws)
    (hval : validation h = some details) :
    ((customHostnameWebhooks expectedSecret (some expectedSecret) (some h) validation
        store).writes ≠ [] ↔
      isCustomDomainWorking details ≠ ws.isCustomDomainEnabled) ∧
    (isCustomDomainWorking details ≠ ws.isCustomDomainEnabled →
      (customHostnameWebhooks expectedSecret (some expectedSecret) (some h) validation
          store).writes =
        [{ customDomain := some h
           isCustomDomainEnabled := isCustomDomainWorking details }]) ∧
    (isCustomDomainWorking details = ws.isCustomDomainEnabled →
      (customHostnameWebhooks expectedSecret (some expectedSecret) (some h) validation
          store).writes = [] ∧
      (customHostnameWebhooks expectedSecret (some expectedSecret) (some h) validation
          store).store = store) ∧
    (customHostnameWebhooks expectedSecret (some expectedSecret) (some h) validation
        (customHostnameWebhooks expectedSecret (some expectedSecret) (some h) validation
          store).store).writes = [] := by
  have heval := webhook_found_validated expectedSecret h validation store ws details hfind hval
  by_cases hdiff : isCustomDomainWorking details = ws.isCustomDomainEnabled
  · simp [heval, hdiff]
  · have hpatch : findByCustomDomain
        (updateFirst (fun w => w.customDomain == some h)
          (applyPatch { customDomain := some h
                        isCustomDomainEnabled := isCustomDomainWorking details }) store) h =
        some (applyPatch { customDomain := some h
                           isCustomDomainEnabled := isCustomDomainWorking details } ws) :=
      find?_updateFirst_pos _ _ store ws hfind (by simp [applyPatch])
    have heval2 := webhook_found_validated expectedSecret h validation _ _ details hpatch hval
    simp [heval, heval2, hdiff, applyPatch]

/-- A stored tenant owning `example.com` with the flag still off. -/
def wsEx : Workspace :=
  { subdomain := "ex", customDomain := some "example.com", isCustomDomainEnabled := false
    createdAt := 3 }

/-- A validation collaborator reporting one successful record for every
hostname. -/
def valOk : String → Option CustomDomainValidRecords :=
  fun _ => some { records := [{ status := "success" }] }

/-- Witness for C2 at a concrete input: all records successful against a
stored flag of false persists the enabling record. -/
theorem C2_reconcile_write_iff_witness :
    (customHostnameWebhooks "correct-secret" (some "correct-secret") (some "example.com")
        valOk [wsEx]).writes =
      [{ customDomain := some "example.com", isCustomDomainEnabled := true }] :=
  (C2_reconcile_write_iff "correct-secret" "example.com" valOk [wsEx] wsEx
    { records := [{ status := "success" }] } rfl rfl).2.1 (by decide)

/-- C3: for an authenticated webhook whose hostname matches a stored tenant's
custom domain and whose DNS validation collaborator returns none, the handler
persists `{customDomain: null, isCustomDomainEnabled: false}`, still responds
200, and — as long as at most one stored tenant claims the hostname — a
repeat delivery for the now-unclaimed hostname writes nothing more. -/
theorem C3_clear_exactly_once (expectedSecret h : String)
    (validation : String → Option CustomDomainValidRecords) (store : List Workspace)
    (ws : Workspace)
    (hfind : findByCustomDomain store h = some ws)
    (hval : validation h = none)
    (huniq : store.countP (fun w => w.customDomain == some h) ≤ 1) :
    (customHostnameWebhooks expectedSecret (some expectedSecret) (some h) validation
        store).status = 200 ∧
    (customHostnameWebhooks expectedSecret (some expectedSecret) (some h) validation
        store).writes =
      [{ customDomain := none, isCustomDomainEnabled := false }] ∧
    (customHostnameWebhooks expectedSecret (some expectedSecret) (some h) validation
        (customHostnameWebhooks expectedSecret (some expectedSecret) (some h) validation
          store).store).writes = [] := by
  have hws : (ws.customDomain == some h) = true := by
    have hfind2 : store.find? (fun w => w.customDomain == some h) = some ws := hfind
    exact List.find?_some (p := fun w => w.customDomain == some h) (l := store) (a := ws)
      hfind2
  have heval := webhook_found_unavailable expectedSecret h validation store ws hfind hval
  have hnone : findByCustomDomain
      (updateFirst (fun w => w.customDomain == some h)
        (applyPatch { customDomain := none, isCustomDomainEnabled := false }) store) h =
      none :=
    find?_updateFirst_gone _ _ store ws hfind (by simp [applyPatch]) huniq
  have heval2 := webhook_not_found expectedSecret h validation _ hnone
  simp [heval, heval2, hws]

/-- A stored tenant owning `notfound.com` with the flag on. -/
def wsNf : Workspace :=
  { subdomain := "nf", customDomain := some "notfound.com", isCustomDomainEnabled := true
    createdAt := 4 }

/-- Witness for C3 at a concrete input: validation unavailable for the owned
hostname clears the custom domain. -/
theorem C3_clear_exactly_once_witness :
    (customHostnameWebhooks "correct-secret" (some "correct-secret") (some "notfound.com")
        (fun _ => none) [wsNf]).writes =
      [{ customDomain := none, isCustomDomainEnabled := false }] :=
  (C3_clear_exactly_once "correct-secret" "notfound.com" (fun _ => none) [wsNf] wsNf
    rfl rfl (by decide)).2.1

/-- C4: a webhook whose `cf-webhook-auth` header does not match the shared
secret is answered with the authentication-failure status and triggers no
tenant store read, no write and no DNS-validation lookup; the store is
untouched. -/
theorem C4_bad_secret_rejected (expectedSecret : String) (secretHeader : Option String)
    (hostname : Option String) (validation : String → Option CustomDomainValidRecords)
    (store : List Workspace)
    (hsecret : secretHeader ≠ some expectedSecret) :
    (customHostnameWebhooks expectedSecret secretHeader hostname validation store).status =
      401 ∧
    (customHostnameWebhooks expectedSecret secretHeader hostname validation store).writes =
      [] ∧
    (customHostnameWebhooks expectedSecret secretHeader hostname validation
        store).didStoreRead = false ∧
    (customHostnameWebhooks expectedSecret secretHeader hostname validation
        store).didDnsLookup = false ∧
    (customHostnameWebhooks expectedSecret secretHeader hostname validation store).store =
      store := by
  have hbne : (secretHeader != some expectedSecret) = true := bne_iff_ne.mpr hsecret
  simp [customHostnameWebhooks, hbne]

/-- Witness for C4 at a concrete input: a wrong secret is rejected without
any effect. -/
theorem C4_bad_secret_rejected_witness :
    (customHostnameWebhooks "correct-secret" (some "wrong-secret") (some "example.com")
        valOk [wsEx]).status = 401 ∧
    (customHostnameWebhooks "correct-secret" (some "wrong-secret") (some "example.com")
        valOk [wsEx]).writes = [] ∧
    (customHostnameWebhooks "correct-secret" (some "wrong-secret") (some "example.com")
        valOk [wsEx]).didStoreRead = false ∧
    (customHostnameWebhooks "correct-secret" (some "wrong-secret") (some "example.com")
        valOk [wsEx]).didDnsLookup = false ∧
    (customHostnameWebhooks "correct-secret" (some "wrong-secret") (some "example.com")
        valOk [wsEx]).store = [wsEx] :=
  C4_bad_secret_rejected "correct-secret" (some "wrong-secret") (some "example.com")
    valOk [wsEx] (by decide)

/-- C6: an authenticated webhook whose payload carries no hostname is
answered with status 200 and writes nothing — the stored tenant state is
unchanged. -/
theorem C6_missing_hostname_noop (expectedSecret : String)
    (validation : String → Option CustomDomainValidRecords) (store : List Workspace) :
    (customHostnameWebhooks expectedSecret (some expectedSecret) none validation
        store).status = 200 ∧
    (customHostnameWebhooks expectedSecret (some expectedSecret) none validation
        store).writes = [] ∧
    (customHostnameWebhooks expectedSecret (some expectedSecret) none validation
        store).store = store := by
  simp [customHostnameWebhooks]

end Twenty
